import Mathlib

/-!
# Metaball surface batch cache (`draw_cache_impl_metaball.c`)

A shallow embedding of the per-metaball batch cache of the draw module.

* Pointers are `Option` values (`none` is `NULL`).  A `Gwn_Batch` carries the
  serial number of the allocation that created it, which is its identity.
* Mutation is explicit state passing: every function takes the record it
  mutates together with the `World` (batch allocator, live batches, effect log)
  and returns the updated pair.
* Code that traps (`BLI_assert`) or dereferences `NULL` returns an `Outcome`
  other than `ok`.  Assertions are modelled as in a debug build.
-/

namespace DrawCacheMetaball

/-! ## Data model -/

/-- Three coordinates of a position or of a normal. -/
abbrev Vec3 := Int × Int × Int

/-- One vertex of a batch: position and normal, interleaved. -/
abbrev Vert := Vec3 × Vec3

/-- The display list `ob->curve_cache->disp`: flat arrays of triangle positions
and normals, three entries per triangle. -/
structure DispList where
  verts : List Vec3
  nors : List Vec3
deriving DecidableEq, Repr

/-- The part of `CurveCache` this file reads: its `disp` member. -/
structure CurveCache where
  disp : DispList
deriving DecidableEq, Repr

/-- A GPU batch.  `id` is the identity of the batch object (the serial number
of the allocation that made it), `verts` its vertex buffer. -/
structure Gwn_Batch where
  id : Nat
  verts : List Vert
deriving DecidableEq, Repr

/-- The struct `MetaBallBatchCache`. -/
structure MetaBallBatchCache where
  batch : Option Gwn_Batch
  is_dirty : Bool
deriving DecidableEq, Repr

/-- The part of `MetaBall` this file touches: the slot `mb->batch_cache`. -/
structure MetaBall where
  batch_cache : Option MetaBallBatchCache
deriving DecidableEq, Repr

/-- The part of `Object` this file reads.  `data` is the metaball `ob->data`
points to, `curve_cache` the pointer `ob->curve_cache`.
Modelled from the spec: `is_basis` is the "basis-of-family" status (a boolean)
that the object model supplies; `BKE_mball_is_basis` is declared in
`BKE_mball.h` and not defined in this file. -/
structure Object where
  is_basis : Bool
  data : MetaBall
  curve_cache : Option CurveCache
deriving DecidableEq, Repr

/-- The struct `MetaBallRenderData`. -/
structure MetaBallRenderData where
  types : Nat
  ob_curve_cache : Option CurveCache
deriving DecidableEq, Repr

/-- The enumerator `MBALL_DATATYPE_SURFACE = 1 << 0`. -/
def MBALL_DATATYPE_SURFACE : Nat := 1 <<< 0

/-- Modelled from the spec: the invalidation mode "all geometry dirty", the
single mode there is.  The enumerator is declared in `BKE_mball.h`, not in this
file; no result below depends on its numeric value. -/
def BKE_MBALL_BATCH_DIRTY_ALL : Int := 0

/-- An observable effect on memory outside the cache entry's fields. -/
inductive Event where
  | cache_alloc
  | cache_free
  | batch_build (id : Nat)
  | batch_discard (id : Nat)
deriving DecidableEq, Repr

/-- The environment of the cache: `next` is the serial the next batch will
get, `live` the batches built and not yet discarded, `log` every allocation,
release, build and discard so far, oldest first. -/
structure World where
  next : Nat
  live : List Nat
  log : List Event
deriving DecidableEq, Repr

/-- The result of a call that may trap: `ok` is a normal return,
`assert_failed` a `BLI_assert` that fired, `undefined` a `NULL` dereference. -/
inductive Outcome (α : Type) where
  | ok (a : α)
  | assert_failed
  | undefined
deriving DecidableEq, Repr

/-- The type of the surface builder applied to a display list: the vertex
buffer of the batch, or `none` when it returns `NULL`. -/
abbrev SurfaceCalc := DispList → Option (List Vert)

/-! ## External collaborators -/

/-- Modelled from the spec: `BKE_mball_is_basis` is not in this file; it
yields the object's "basis-of-family" status. -/
def BKE_mball_is_basis (ob : Object) : Bool :=
  ob.is_basis

/-- Modelled from the spec: `GWN_batch_discard` is not in this file; it
releases the GPU batch, which stops being live. -/
def GWN_batch_discard (b : Gwn_Batch) (w : World) : World :=
  { w with live := w.live.erase b.id, log := w.log ++ [Event.batch_discard b.id] }

/-- Modelled from the spec: the macro `GWN_BATCH_DISCARD_SAFE` is not in this
file; it discards the batch if there is one and leaves the pointer `NULL`. -/
def GWN_BATCH_DISCARD_SAFE (batch : Option Gwn_Batch) (w : World) :
    Option Gwn_Batch × World :=
  match batch with
  | none => (none, w)
  | some b => (none, GWN_batch_discard b w)

/-- Modelled from the spec: the macro `MEM_SAFE_FREE` is not in this file; it
releases the cache entry's memory if there is one and leaves the pointer
`NULL`. -/
def MEM_SAFE_FREE (p : Option MetaBallBatchCache) (w : World) :
    Option MetaBallBatchCache × World :=
  match p with
  | none => (none, w)
  | some _ => (none, { w with log := w.log ++ [Event.cache_free] })

/-- Modelled from the spec: `BLI_displist_batch_calc_surface` is not in this
file; it builds the triangle batch from the display list.  What the vertex
buffer holds, and whether a batch is made at all, is left to the argument
`surf`; a batch that is made is a new object with the next serial. -/
def BLI_displist_batch_calc_surface (surf : SurfaceCalc) (disp : DispList) (w : World) :
    Option Gwn_Batch × World :=
  match surf disp with
  | none => (none, w)
  | some vs =>
    (some { id := w.next, verts := vs },
     { next := w.next + 1, live := w.live ++ [w.next],
       log := w.log ++ [Event.batch_build w.next] })

/-- Modelled from the spec: a surface builder that interleaves the positions
and normals of the display list per vertex, as a flat triangle list without
index buffer.  The builder itself is not in this file. -/
def interleave_surface : SurfaceCalc :=
  fun disp => some (List.zip disp.verts disp.nors)

/-! ## The code of `draw_cache_impl_metaball.c` -/

/-- The function `metaball_render_data_create`.  The snapshot is a value: its
allocation and its release by `metaball_render_data_free` right after use are
not recorded in the log. -/
def metaball_render_data_create (_mb : MetaBall) (ob_curve_cache : Option CurveCache)
    (types : Nat) : MetaBallRenderData :=
  { types := types, ob_curve_cache := ob_curve_cache }

/-- The function `metaball_batch_cache_valid`. -/
def metaball_batch_cache_valid (mb : MetaBall) : Bool :=
  match mb.batch_cache with
  | none => false
  | some cache => cache.is_dirty == false

/-- The function `metaball_batch_cache_init`. -/
def metaball_batch_cache_init (mb : MetaBall) (w : World) : MetaBall × World :=
  match mb.batch_cache with
  | none =>
    ({ batch_cache := some { batch := none, is_dirty := false } },
     { w with log := w.log ++ [Event.cache_alloc] })
  | some cache =>
    ({ batch_cache := some { cache with batch := none, is_dirty := false } }, w)

/-- The function `metaball_batch_cache_clear`. -/
def metaball_batch_cache_clear (mb : MetaBall) (w : World) : MetaBall × World :=
  match mb.batch_cache with
  | none => (mb, w)
  | some cache =>
    let r := GWN_BATCH_DISCARD_SAFE cache.batch w
    ({ batch_cache := some { cache with batch := r.1 } }, r.2)

/-- The function `metaball_batch_cache_get`.  The pointer it returns is
`mb->batch_cache` of the metaball it returns. -/
def metaball_batch_cache_get (mb : MetaBall) (w : World) : MetaBall × World :=
  if !metaball_batch_cache_valid mb then
    let r := metaball_batch_cache_clear mb w
    metaball_batch_cache_init r.1 r.2
  else
    (mb, w)

/-- The function `DRW_mball_batch_cache_dirty`. -/
def DRW_mball_batch_cache_dirty (mb : MetaBall) (mode : Int) (w : World) :
    Outcome (MetaBall × World) :=
  match mb.batch_cache with
  | none => Outcome.ok (mb, w)
  | some cache =>
    if mode = BKE_MBALL_BATCH_DIRTY_ALL then
      Outcome.ok ({ batch_cache := some { cache with is_dirty := true } }, w)
    else
      Outcome.assert_failed

/-- The function `DRW_mball_batch_cache_free`. -/
def DRW_mball_batch_cache_free (mb : MetaBall) (w : World) : MetaBall × World :=
  let r := metaball_batch_cache_clear mb w
  let f := MEM_SAFE_FREE r.1.batch_cache r.2
  ({ batch_cache := f.1 }, f.2)

/-- The function `metaball_batch_cache_get_pos_and_normals`: the batch it
returns, the cache entry after the call and the world. -/
def metaball_batch_cache_get_pos_and_normals (surf : SurfaceCalc)
    (rdata : MetaBallRenderData) (cache : MetaBallBatchCache) (w : World) :
    Outcome (Option Gwn_Batch × MetaBallBatchCache × World) :=
  if rdata.types &&& MBALL_DATATYPE_SURFACE = 0 then
    Outcome.assert_failed
  else
    match cache.batch with
    | some b => Outcome.ok (some b, cache, w)
    | none =>
      match rdata.ob_curve_cache with
      | none => Outcome.undefined
      | some cc =>
        let r := BLI_displist_batch_calc_surface surf cc.disp w
        Outcome.ok (r.1, { cache with batch := r.1 }, r.2)

/-- The function `DRW_metaball_batch_cache_get_triangles_with_normals`: the
batch it returns, the object after the call and the world. -/
def DRW_metaball_batch_cache_get_triangles_with_normals (surf : SurfaceCalc)
    (ob : Object) (w : World) : Outcome (Option Gwn_Batch × Object × World) :=
  if !BKE_mball_is_basis ob then
    Outcome.ok (none, ob, w)
  else
    let r := metaball_batch_cache_get ob.data w
    match r.1.batch_cache with
    | none => Outcome.undefined
    | some cache =>
      match cache.batch with
      | some b => Outcome.ok (some b, { ob with data := r.1 }, r.2)
      | none =>
        let rdata := metaball_render_data_create r.1 ob.curve_cache MBALL_DATATYPE_SURFACE
        match metaball_batch_cache_get_pos_and_normals surf rdata cache r.2 with
        | Outcome.ok res =>
          Outcome.ok (res.2.1.batch,
            { ob with data := { batch_cache := some res.2.1 } }, res.2.2)
        | Outcome.assert_failed => Outcome.assert_failed
        | Outcome.undefined => Outcome.undefined

/-! ## Ownership bookkeeping -/

/-- The serials of the batches the log records as built, oldest first. -/
def built (log : List Event) : List Nat :=
  log.filterMap fun e => match e with
    | Event.batch_build i => some i
    | _ => none

/-- The serials of the batches the log records as discarded, oldest first. -/
def discarded (log : List Event) : List Nat :=
  log.filterMap fun e => match e with
    | Event.batch_discard i => some i
    | _ => none

/-- The batches the cache entry of `mb` holds: none without an entry or with an
absent batch, else the entry's batch alone. -/
def owned (mb : MetaBall) : List Nat :=
  match mb.batch_cache with
  | none => []
  | some cache =>
    match cache.batch with
    | none => []
    | some b => [b.id]

/-- The ownership invariant of a metaball and its world: the live batches are
exactly the batch of the cache entry, every batch that exists was made by the
allocator, a discarded batch is not live, nothing was discarded twice, and
every batch built is live or was discarded. -/
def Inv (mb : MetaBall) (w : World) : Prop :=
  w.live = owned mb ∧
  (∀ i ∈ w.live, i < w.next) ∧
  (∀ i ∈ discarded w.log, i < w.next ∧ i ∉ w.live) ∧
  (discarded w.log).Nodup ∧
  (∀ i ∈ built w.log, i ∈ w.live ∨ i ∈ discarded w.log)

instance (mb : MetaBall) (w : World) : Decidable (Inv mb w) := by
  unfold Inv; infer_instance

/-- A call of one of the three entry points on the metaball of an object.  A
`get` carries what the object shows at the time of the call: whether it is the
basis and its `curve_cache`. -/
inductive Op where
  | get (is_basis : Bool) (curve_cache : Option CurveCache)
  | dirty (mode : Int)
  | free
deriving DecidableEq, Repr

/-- One call, on the metaball and the world. -/
def step (surf : SurfaceCalc) (op : Op) (s : MetaBall × World) : Outcome (MetaBall × World) :=
  match op with
  | Op.get is_basis curve_cache =>
    match DRW_metaball_batch_cache_get_triangles_with_normals surf
        { is_basis := is_basis, data := s.1, curve_cache := curve_cache } s.2 with
    | Outcome.ok r => Outcome.ok (r.2.1.data, r.2.2)
    | Outcome.assert_failed => Outcome.assert_failed
    | Outcome.undefined => Outcome.undefined
  | Op.dirty mode => DRW_mball_batch_cache_dirty s.1 mode s.2
  | Op.free => Outcome.ok (DRW_mball_batch_cache_free s.1 s.2)

/-- A sequence of calls, first to last; it stops at the first call that traps. -/
def run (surf : SurfaceCalc) (ops : List Op) (s : MetaBall × World) :
    Outcome (MetaBall × World) :=
  match ops with
  | [] => Outcome.ok s
  | op :: rest =>
    match step surf op s with
    | Outcome.ok s1 => run surf rest s1
    | Outcome.assert_failed => Outcome.assert_failed
    | Outcome.undefined => Outcome.undefined

/-! ## Sample data -/

/-- A display list of `n` triangles. -/
def sample_disp (n : Nat) : DispList :=
  { verts := List.replicate (3 * n) (0, 0, 0), nors := List.replicate (3 * n) (0, 0, 1) }

/-- A basis object that was never cached, with `n` triangles of geometry. -/
def sample_object (n : Nat) : Object :=
  { is_basis := true, data := { batch_cache := none },
    curve_cache := some { disp := sample_disp n } }

/-- A world in which nothing has happened yet. -/
def sample_world : World :=
  { next := 0, live := [], log := [] }

/-- A batch with serial `i` holding `n` triangles. -/
def sample_batch (i n : Nat) : Gwn_Batch :=
  { id := i, verts := List.replicate (3 * n) ((0, 0, 0), (0, 0, 1)) }

/-- A basis object whose entry is dirty and still holds the batch with serial
`0`, built from two triangles, while the object now has four triangles. -/
def sample_stale_object : Object :=
  { is_basis := true,
    data := { batch_cache := some { batch := some (sample_batch 0 2), is_dirty := true } },
    curve_cache := some { disp := sample_disp 4 } }

/-- A world in which the batch with serial `0` was built and is live. -/
def sample_world_one : World :=
  { next := 1, live := [0], log := [Event.cache_alloc, Event.batch_build 0] }

/-! ## Lemmas on the ownership invariant -/

theorem built_append (l1 l2 : List Event) : built (l1 ++ l2) = built l1 ++ built l2 := by
  simp [built]

theorem discarded_append (l1 l2 : List Event) :
    discarded (l1 ++ l2) = discarded l1 ++ discarded l2 := by
  simp [discarded]

/-- The invariant looks at the metaball only through the batches it owns. -/
theorem inv_of_owned_eq {mb mb1 : MetaBall} {w : World} (h : owned mb1 = owned mb)
    (hi : Inv mb w) : Inv mb1 w := by
  unfold Inv at *
  rw [h]
  exact hi

/-- Allocating or releasing the cache entry does not touch the invariant. -/
theorem inv_log_cache_alloc {mb : MetaBall} {w : World} (hi : Inv mb w) :
    Inv mb { w with log := w.log ++ [Event.cache_alloc] } := by
  unfold Inv at *
  simpa [built_append, discarded_append, built, discarded] using hi

theorem inv_log_cache_free {mb : MetaBall} {w : World} (hi : Inv mb w) :
    Inv mb { w with log := w.log ++ [Event.cache_free] } := by
  unfold Inv at *
  simpa [built_append, discarded_append, built, discarded] using hi

/-- Discarding the batch the entry holds, and forgetting it, keeps the invariant. -/
theorem inv_discard {b : Gwn_Batch} {d : Bool} (mb1 : MetaBall) {w : World}
    (hi : Inv { batch_cache := some { batch := some b, is_dirty := d } } w)
    (h1 : owned mb1 = []) : Inv mb1 (GWN_batch_discard b w) := by
  obtain ⟨hl, hlt, hd, hnd, hb⟩ := hi
  simp only [owned] at hl
  unfold Inv GWN_batch_discard
  simp only [h1, hl, discarded_append, built_append]
  have hbl : ∀ i ∈ w.live, i = b.id := by intro i hi; rw [hl] at hi; simpa using hi
  have hbn : b.id < w.next := hlt b.id (by rw [hl]; simp)
  refine ⟨by simp, by simp, ?_, ?_, ?_⟩
  · intro i hi
    simp [discarded] at hi
    rcases hi with hi | hi
    · exact ⟨(hd i (by simpa [discarded] using hi)).1, by simp⟩
    · exact ⟨hi ▸ hbn, by simp⟩
  · rw [List.nodup_append]
    refine ⟨hnd, by simp [discarded], ?_⟩
    intro i hi hi2
    have : i = b.id := by simpa [discarded] using hi2
    subst this
    exact (hd _ hi).2 (by rw [hl]; simp)
  · intro i hi
    simp [built] at hi
    rcases hb i (by simpa [built] using hi) with h | h
    · right; simp [discarded, hbl i h]
    · right; simp [List.mem_append, h]

/-- Building a batch into an entry that holds none keeps the invariant. -/
theorem inv_build {mb mb1 : MetaBall} {w : World} (hi : Inv mb w) (h0 : owned mb = [])
    (h1 : owned mb1 = [w.next]) :
    Inv mb1 { next := w.next + 1, live := w.live ++ [w.next],
              log := w.log ++ [Event.batch_build w.next] } := by
  obtain ⟨hl, hlt, hd, hnd, hb⟩ := hi
  rw [h0] at hl
  unfold Inv
  simp only [h1, hl, discarded_append, built_append]
  refine ⟨by simp, by simp, ?_, ?_, ?_⟩
  · intro i hi
    have hi1 : i ∈ discarded w.log := by simpa [discarded] using hi
    have := (hd i hi1).1
    exact ⟨by omega, by simp; omega⟩
  · simpa [discarded] using hnd
  · intro i hi
    simp [built] at hi
    rcases hi with hi | hi
    · rcases hb i (by simpa [built] using hi) with h | h
      · rw [hl] at h; simp at h
      · right; simp [h]
    · left; simp [hi]

/-- `DRW_mball_batch_cache_free` keeps the invariant. -/
theorem inv_free {mb : MetaBall} {w : World} (hi : Inv mb w) :
    Inv (DRW_mball_batch_cache_free mb w).1 (DRW_mball_batch_cache_free mb w).2 := by
  rcases mb with ⟨_ | ⟨_ | b, d⟩⟩
  · simpa [DRW_mball_batch_cache_free, metaball_batch_cache_clear, MEM_SAFE_FREE] using hi
  · have := inv_log_cache_free hi
    simp only [DRW_mball_batch_cache_free, metaball_batch_cache_clear, MEM_SAFE_FREE,
      GWN_BATCH_DISCARD_SAFE]
    exact inv_of_owned_eq (by simp [owned]) this
  · have h := inv_discard { batch_cache := none } hi (by simp [owned])
    have := inv_log_cache_free h
    simpa [DRW_mball_batch_cache_free, metaball_batch_cache_clear, MEM_SAFE_FREE,
      GWN_BATCH_DISCARD_SAFE] using this

/-- `DRW_mball_batch_cache_dirty` keeps the invariant whenever it returns. -/
theorem inv_dirty {mb mb1 : MetaBall} {w w1 : World} {mode : Int} (hi : Inv mb w)
    (h : DRW_mball_batch_cache_dirty mb mode w = Outcome.ok (mb1, w1)) : Inv mb1 w1 := by
  rcases mb with ⟨_ | ⟨bo, d⟩⟩
  · simp [DRW_mball_batch_cache_dirty] at h
    obtain ⟨rfl, rfl⟩ := h
    exact hi
  · simp only [DRW_mball_batch_cache_dirty] at h
    split at h
    · simp at h
      obtain ⟨rfl, rfl⟩ := h
      exact inv_of_owned_eq (by simp [owned]) hi
    · simp at h

/-- `metaball_batch_cache_get` keeps the invariant and yields a clean entry. -/
theorem inv_cache_get {mb : MetaBall} {w : World} (hi : Inv mb w) :
    Inv (metaball_batch_cache_get mb w).1 (metaball_batch_cache_get mb w).2 := by
  rcases mb with ⟨_ | ⟨_ | b, _ | _⟩⟩
  · have := inv_log_cache_alloc hi
    simp only [metaball_batch_cache_get, metaball_batch_cache_valid, metaball_batch_cache_clear,
      metaball_batch_cache_init]
    exact inv_of_owned_eq (by simp [owned]) this
  · simpa [metaball_batch_cache_get, metaball_batch_cache_valid] using hi
  · simp only [metaball_batch_cache_get, metaball_batch_cache_valid, metaball_batch_cache_clear,
      metaball_batch_cache_init, GWN_BATCH_DISCARD_SAFE]
    exact inv_of_owned_eq (by simp [owned]) hi
  · simpa [metaball_batch_cache_get, metaball_batch_cache_valid] using hi
  · have h := inv_discard { batch_cache := some { batch := none, is_dirty := false } }
      hi (by simp [owned])
    simpa [metaball_batch_cache_get, metaball_batch_cache_valid, metaball_batch_cache_clear,
      metaball_batch_cache_init, GWN_BATCH_DISCARD_SAFE] using h

/-- `DRW_metaball_batch_cache_get_triangles_with_normals` keeps the invariant
whenever it returns. -/
theorem inv_get {surf : SurfaceCalc} (ob : Object) {ob1 : Object} {w w1 : World}
    {r : Option Gwn_Batch}
    (hi : Inv ob.data w)
    (h : DRW_metaball_batch_cache_get_triangles_with_normals surf ob w
      = Outcome.ok (r, ob1, w1)) : Inv ob1.data w1 := by
  simp only [DRW_metaball_batch_cache_get_triangles_with_normals] at h
  split at h
  · simp at h
    obtain ⟨-, rfl, rfl⟩ := h
    exact hi
  · have hg := inv_cache_get hi
    revert h hg
    generalize metaball_batch_cache_get ob.data w = p
    rcases p with ⟨⟨_ | ⟨_ | b, d⟩⟩, w2⟩
    · simp
    · intro h hg
      simp only [metaball_render_data_create, metaball_batch_cache_get_pos_and_normals,
        MBALL_DATATYPE_SURFACE] at h
      rcases hcc : ob.curve_cache with _ | cc
      · simp [hcc] at h
      · simp only [hcc, BLI_displist_batch_calc_surface] at h
        rcases hs : surf cc.disp with _ | vs
        · simp [hs] at h
          obtain ⟨-, rfl, rfl⟩ := h
          exact inv_of_owned_eq (by simp [owned]) hg
        · simp [hs] at h
          obtain ⟨-, rfl, rfl⟩ := h
          exact inv_build hg (by simp [owned]) (by simp [owned])
    · intro h hg
      simp at h
      obtain ⟨-, rfl, rfl⟩ := h
      exact hg

/-! ## Properties -/

/-- C1: for an object that is not the basis, whatever the cache state of its
metaball, `DRW_metaball_batch_cache_get_triangles_with_normals` returns
normally and the batch it returns is absent (`NULL`). -/
theorem C1_non_basis_returns_absent (surf : SurfaceCalc) (ob : Object) (w : World)
    (h : BKE_mball_is_basis ob = false) :
    ∃ ob1 w1, DRW_metaball_batch_cache_get_triangles_with_normals surf ob w
      = Outcome.ok (none, ob1, w1) := by
  refine ⟨ob, w, ?_⟩
  simp [DRW_metaball_batch_cache_get_triangles_with_normals, h]

/-- Witness of C1: a non-basis object whose metaball has a dirty entry that
holds a batch. -/
theorem C1_non_basis_returns_absent_witness :
    BKE_mball_is_basis
        { is_basis := false,
          data := { batch_cache := some { batch := some (sample_batch 0 2), is_dirty := true } },
          curve_cache := some { disp := sample_disp 4 } } = false ∧
    ∃ ob1 w1, DRW_metaball_batch_cache_get_triangles_with_normals interleave_surface
        { is_basis := false,
          data := { batch_cache := some { batch := some (sample_batch 0 2), is_dirty := true } },
          curve_cache := some { disp := sample_disp 4 } } sample_world_one
      = Outcome.ok (none, ob1, w1) :=
  ⟨rfl, C1_non_basis_returns_absent _ _ _ rfl⟩

/-- C10: for an object that is not the basis,
`DRW_metaball_batch_cache_get_triangles_with_normals` leaves the object, the
cache entry of its metaball (if any, with its `is_dirty` flag and batch) and
the world as they were: nothing is allocated, built, discarded or reset. -/
theorem C10_non_basis_changes_nothing (surf : SurfaceCalc) (ob : Object) (w : World)
    (h : BKE_mball_is_basis ob = false) :
    ∃ r, DRW_metaball_batch_cache_get_triangles_with_normals surf ob w
      = Outcome.ok (r, ob, w) := by
  refine ⟨none, ?_⟩
  simp [DRW_metaball_batch_cache_get_triangles_with_normals, h]

/-- Witness of C10: a non-basis object whose metaball has a dirty entry with a
stale batch, and no geometry. -/
theorem C10_non_basis_changes_nothing_witness :
    BKE_mball_is_basis
        { is_basis := false,
          data := { batch_cache := some { batch := some (sample_batch 0 4), is_dirty := true } },
          curve_cache := none } = false ∧
    ∃ r, DRW_metaball_batch_cache_get_triangles_with_normals interleave_surface
        { is_basis := false,
          data := { batch_cache := some { batch := some (sample_batch 0 4), is_dirty := true } },
          curve_cache := none } sample_world_one
      = Outcome.ok (r,
        { is_basis := false,
          data := { batch_cache := some { batch := some (sample_batch 0 4), is_dirty := true } },
          curve_cache := none }, sample_world_one) :=
  ⟨rfl, C10_non_basis_changes_nothing _ _ _ rfl⟩

/-- C4: `DRW_mball_batch_cache_dirty` with `BKE_MBALL_BATCH_DIRTY_ALL` returns
normally; on a metaball with a cache entry it sets `is_dirty` and leaves the
entry's batch and the world (live batches, log) as they were; on a metaball
without an entry it leaves everything as it was and creates no entry. -/
theorem C4_dirty_all_sets_flag_only (cache : MetaBallBatchCache) (w : World) :
    DRW_mball_batch_cache_dirty { batch_cache := some cache } BKE_MBALL_BATCH_DIRTY_ALL w
      = Outcome.ok ({ batch_cache := some { batch := cache.batch, is_dirty := true } }, w) ∧
    DRW_mball_batch_cache_dirty { batch_cache := none } BKE_MBALL_BATCH_DIRTY_ALL w
      = Outcome.ok ({ batch_cache := none }, w) := by
  simp [DRW_mball_batch_cache_dirty]

/-- C5: `DRW_mball_batch_cache_free` is total; it discards the batch of the
entry if there is one, releases the entry if there is one, and leaves the
metaball without an entry; on a metaball without an entry it changes nothing;
and a second call right after the first changes nothing. -/
theorem C5_free_idempotent (b : Gwn_Batch) (d : Bool) (mb : MetaBall) (w : World) :
    DRW_mball_batch_cache_free { batch_cache := some { batch := some b, is_dirty := d } } w
      = ({ batch_cache := none },
         { next := w.next, live := w.live.erase b.id,
           log := w.log ++ [Event.batch_discard b.id, Event.cache_free] }) ∧
    DRW_mball_batch_cache_free { batch_cache := some { batch := none, is_dirty := d } } w
      = ({ batch_cache := none },
         { next := w.next, live := w.live, log := w.log ++ [Event.cache_free] }) ∧
    DRW_mball_batch_cache_free { batch_cache := none } w = ({ batch_cache := none }, w) ∧
    (DRW_mball_batch_cache_free mb w).1.batch_cache = none ∧
    DRW_mball_batch_cache_free (DRW_mball_batch_cache_free mb w).1
        (DRW_mball_batch_cache_free mb w).2
      = DRW_mball_batch_cache_free mb w := by
  refine ⟨?_, ?_, ?_, ?_, ?_⟩
  · simp [DRW_mball_batch_cache_free, metaball_batch_cache_clear, GWN_BATCH_DISCARD_SAFE,
      GWN_batch_discard, MEM_SAFE_FREE]
  · simp [DRW_mball_batch_cache_free, metaball_batch_cache_clear, GWN_BATCH_DISCARD_SAFE,
      MEM_SAFE_FREE]
  · simp [DRW_mball_batch_cache_free, metaball_batch_cache_clear, MEM_SAFE_FREE]
  · rcases mb with ⟨_ | ⟨_ | b1, d1⟩⟩ <;>
      simp [DRW_mball_batch_cache_free, metaball_batch_cache_clear, GWN_BATCH_DISCARD_SAFE,
        GWN_batch_discard, MEM_SAFE_FREE]
  · rcases mb with ⟨_ | ⟨_ | b1, d1⟩⟩ <;>
      simp [DRW_mball_batch_cache_free, metaball_batch_cache_clear, GWN_BATCH_DISCARD_SAFE,
        GWN_batch_discard, MEM_SAFE_FREE]

/-- C2: for a basis object with populated geometry and no cache entry, the
first `DRW_metaball_batch_cache_get_triangles_with_normals` allocates the
entry, builds one batch from the object's display list and returns it; that
batch is what the surface builder makes of the display list; the second call
right after returns the same batch and leaves the object, its cache entry and
the world (so the log of builds and discards) as they were. -/
theorem C2_first_get_builds_second_reuses (surf : SurfaceCalc) (ob : Object) (w : World)
    (cc : CurveCache) (vs : List Vert)
    (hb : BKE_mball_is_basis ob = true) (hc : ob.data.batch_cache = none)
    (hg : ob.curve_cache = some cc) (hs : surf cc.disp = some vs) :
    DRW_metaball_batch_cache_get_triangles_with_normals surf ob w
      = Outcome.ok (some { id := w.next, verts := vs },
          { ob with data :=
              { batch_cache := some { batch := some { id := w.next, verts := vs },
                                      is_dirty := false } } },
          { next := w.next + 1, live := w.live ++ [w.next],
            log := w.log ++ [Event.cache_alloc, Event.batch_build w.next] }) ∧
    (BLI_displist_batch_calc_surface surf cc.disp
        { w with log := w.log ++ [Event.cache_alloc] }).1
      = some { id := w.next, verts := vs } ∧
    DRW_metaball_batch_cache_get_triangles_with_normals surf
        { ob with data :=
            { batch_cache := some { batch := some { id := w.next, verts := vs },
                                    is_dirty := false } } }
        { next := w.next + 1, live := w.live ++ [w.next],
          log := w.log ++ [Event.cache_alloc, Event.batch_build w.next] }
      = Outcome.ok (some { id := w.next, verts := vs },
          { ob with data :=
              { batch_cache := some { batch := some { id := w.next, verts := vs },
                                      is_dirty := false } } },
          { next := w.next + 1, live := w.live ++ [w.next],
            log := w.log ++ [Event.cache_alloc, Event.batch_build w.next] }) := by
  rcases ob with ⟨ib, ⟨c⟩, g⟩
  simp only [BKE_mball_is_basis] at hb hc hg
  subst hb hc hg
  refine ⟨?_, ?_, ?_⟩
  · simp [DRW_metaball_batch_cache_get_triangles_with_normals, BKE_mball_is_basis,
      metaball_batch_cache_get, metaball_batch_cache_valid, metaball_batch_cache_clear,
      metaball_batch_cache_init, metaball_render_data_create,
      metaball_batch_cache_get_pos_and_normals, MBALL_DATATYPE_SURFACE,
      BLI_displist_batch_calc_surface, hs]
  · simp [BLI_displist_batch_calc_surface, hs]
  · simp [DRW_metaball_batch_cache_get_triangles_with_normals, BKE_mball_is_basis,
      metaball_batch_cache_get, metaball_batch_cache_valid]

/-- Witness of C2: a never-cached basis object with two triangles. -/
theorem C2_first_get_builds_second_reuses_witness :
    DRW_metaball_batch_cache_get_triangles_with_normals interleave_surface
        (sample_object 2) sample_world
      = Outcome.ok (some (sample_batch 0 2),
          { is_basis := true,
            data := { batch_cache := some { batch := some (sample_batch 0 2),
                                            is_dirty := false } },
            curve_cache := some { disp := sample_disp 2 } },
          sample_world_one) ∧
    DRW_metaball_batch_cache_get_triangles_with_normals interleave_surface
        { is_basis := true,
          data := { batch_cache := some { batch := some (sample_batch 0 2),
                                          is_dirty := false } },
          curve_cache := some { disp := sample_disp 2 } }
        sample_world_one
      = Outcome.ok (some (sample_batch 0 2),
          { is_basis := true,
            data := { batch_cache := some { batch := some (sample_batch 0 2),
                                            is_dirty := false } },
            curve_cache := some { disp := sample_disp 2 } },
          sample_world_one) :=
  have h := C2_first_get_builds_second_reuses interleave_surface (sample_object 2)
    sample_world { disp := sample_disp 2 } (sample_batch 0 2).verts rfl rfl rfl rfl
  ⟨h.1, h.2.2⟩

/-- C3: for a basis object whose cache entry holds a batch B1, in a state that
satisfies the ownership invariant and with display-list geometry present at
the time of the second call, `DRW_mball_batch_cache_dirty` with
`BKE_MBALL_BATCH_DIRTY_ALL` followed by
`DRW_metaball_batch_cache_get_triangles_with_normals` discards B1 (it is logged
as discarded and no longer live), returns a newly built batch B2 whose vertex
buffer is what the surface builder makes of that geometry, B2 has another
identity than B1, and the entry holds B2 with `is_dirty` false. -/
theorem C3_dirty_then_get_rebuilds (surf : SurfaceCalc) (ob : Object) (w : World)
    (b1 : Gwn_Batch) (d : Bool) (cc : CurveCache) (vs : List Vert)
    (hb : BKE_mball_is_basis ob = true)
    (hc : ob.data.batch_cache = some { batch := some b1, is_dirty := d })
    (hg : ob.curve_cache = some cc) (hs : surf cc.disp = some vs)
    (hinv : Inv ob.data w) :
    DRW_mball_batch_cache_dirty ob.data BKE_MBALL_BATCH_DIRTY_ALL w
      = Outcome.ok ({ batch_cache := some { batch := some b1, is_dirty := true } }, w) ∧
    DRW_metaball_batch_cache_get_triangles_with_normals surf
        { ob with data := { batch_cache := some { batch := some b1, is_dirty := true } } } w
      = Outcome.ok (some { id := w.next, verts := vs },
          { ob with data :=
              { batch_cache := some { batch := some { id := w.next, verts := vs },
                                      is_dirty := false } } },
          { next := w.next + 1, live := [w.next],
            log := w.log ++ [Event.batch_discard b1.id, Event.batch_build w.next] }) ∧
    w.next ≠ b1.id ∧
    (BLI_displist_batch_calc_surface surf cc.disp (GWN_batch_discard b1 w)).1
      = some { id := w.next, verts := vs } := by
  rcases ob with ⟨ib, ⟨c⟩, g⟩
  simp only [BKE_mball_is_basis] at hb hc hg hinv
  subst hb hc hg
  obtain ⟨hl, hlt, -⟩ := hinv
  simp only [owned] at hl
  have hlt1 : b1.id < w.next := hlt b1.id (by rw [hl]; simp)
  refine ⟨?_, ?_, ?_, ?_⟩
  · simp [DRW_mball_batch_cache_dirty]
  · simp [DRW_metaball_batch_cache_get_triangles_with_normals, BKE_mball_is_basis,
      metaball_batch_cache_get, metaball_batch_cache_valid, metaball_batch_cache_clear,
      metaball_batch_cache_init, metaball_render_data_create,
      metaball_batch_cache_get_pos_and_normals, MBALL_DATATYPE_SURFACE,
      BLI_displist_batch_calc_surface, GWN_BATCH_DISCARD_SAFE, GWN_batch_discard, hs, hl]
  · omega
  · simp [BLI_displist_batch_calc_surface, GWN_batch_discard, hs]

/-- Witness of C3: the entry holds the batch built from two triangles, the
object now has four triangles; the batch returned after the invalidation has
another serial and twelve vertices. -/
theorem C3_dirty_then_get_rebuilds_witness :
    DRW_metaball_batch_cache_get_triangles_with_normals interleave_surface
        (sample_object 2) sample_world
      = Outcome.ok (some (sample_batch 0 2),
          { is_basis := true,
            data := { batch_cache := some { batch := some (sample_batch 0 2),
                                            is_dirty := false } },
            curve_cache := some { disp := sample_disp 2 } },
          sample_world_one) ∧
    Inv { batch_cache := some { batch := some (sample_batch 0 2), is_dirty := false } }
      sample_world_one ∧
    DRW_metaball_batch_cache_get_triangles_with_normals interleave_surface
        { is_basis := true,
          data := { batch_cache := some { batch := some (sample_batch 0 2),
                                          is_dirty := true } },
          curve_cache := some { disp := sample_disp 4 } }
        sample_world_one
      = Outcome.ok (some (sample_batch 1 4),
          { is_basis := true,
            data := { batch_cache := some { batch := some (sample_batch 1 4),
                                            is_dirty := false } },
            curve_cache := some { disp := sample_disp 4 } },
          { next := 2, live := [1],
            log := [Event.cache_alloc, Event.batch_build 0, Event.batch_discard 0,
                    Event.batch_build 1] }) ∧
    (sample_batch 1 4).id ≠ (sample_batch 0 2).id ∧
    (sample_batch 0 2).verts.length = 6 ∧ (sample_batch 1 4).verts.length = 12 :=
  have hinv : Inv ⟨some ⟨some (sample_batch 0 2), false⟩⟩ sample_world_one := by decide
  have h := C3_dirty_then_get_rebuilds interleave_surface
    { is_basis := true,
      data := { batch_cache := some { batch := some (sample_batch 0 2), is_dirty := false } },
      curve_cache := some { disp := sample_disp 4 } }
    sample_world_one (sample_batch 0 2) false { disp := sample_disp 4 }
    (sample_batch 1 4).verts rfl rfl rfl rfl hinv
  ⟨rfl, hinv, h.2.1, h.2.2.1, rfl, rfl⟩

/-- C6: for a basis object with populated geometry in any cache state,
`DRW_mball_batch_cache_free` followed by
`DRW_metaball_batch_cache_get_triangles_with_normals` returns the same batch
and leaves the same object and cache entry as the same call on the object with
a metaball that was never cached, in any world whose allocator stands where it
stood: in both runs a new entry is allocated, one batch is built from the
current geometry and the entry ends clean. -/
theorem C6_free_then_get_as_never_cached (surf : SurfaceCalc) (ob : Object) (w w0 : World)
    (cc : CurveCache) (vs : List Vert)
    (hb : BKE_mball_is_basis ob = true)
    (hg : ob.curve_cache = some cc) (hs : surf cc.disp = some vs)
    (hn : w0.next = w.next) :
    DRW_metaball_batch_cache_get_triangles_with_normals surf
        { ob with data := (DRW_mball_batch_cache_free ob.data w).1 }
        (DRW_mball_batch_cache_free ob.data w).2
      = Outcome.ok (some { id := w.next, verts := vs },
          { ob with data :=
              { batch_cache := some { batch := some { id := w.next, verts := vs },
                                      is_dirty := false } } },
          { next := w.next + 1,
            live := (DRW_mball_batch_cache_free ob.data w).2.live ++ [w.next],
            log := (DRW_mball_batch_cache_free ob.data w).2.log
              ++ [Event.cache_alloc, Event.batch_build w.next] }) ∧
    DRW_metaball_batch_cache_get_triangles_with_normals surf
        { ob with data := { batch_cache := none } } w0
      = Outcome.ok (some { id := w.next, verts := vs },
          { ob with data :=
              { batch_cache := some { batch := some { id := w.next, verts := vs },
                                      is_dirty := false } } },
          { next := w.next + 1, live := w0.live ++ [w.next],
            log := w0.log ++ [Event.cache_alloc, Event.batch_build w.next] }) := by
  rcases ob with ⟨ib, ⟨c⟩, g⟩
  simp only [BKE_mball_is_basis] at hb hg
  subst hb hg
  constructor
  · rcases c with _ | ⟨_ | b, d⟩ <;>
      simp [DRW_metaball_batch_cache_get_triangles_with_normals, BKE_mball_is_basis,
        DRW_mball_batch_cache_free, MEM_SAFE_FREE,
        metaball_batch_cache_get, metaball_batch_cache_valid, metaball_batch_cache_clear,
        metaball_batch_cache_init, metaball_render_data_create,
        metaball_batch_cache_get_pos_and_normals, MBALL_DATATYPE_SURFACE,
        BLI_displist_batch_calc_surface, GWN_BATCH_DISCARD_SAFE, GWN_batch_discard, hs]
  · simp [DRW_metaball_batch_cache_get_triangles_with_normals, BKE_mball_is_basis,
      metaball_batch_cache_get, metaball_batch_cache_valid, metaball_batch_cache_clear,
      metaball_batch_cache_init, metaball_render_data_create,
      metaball_batch_cache_get_pos_and_normals, MBALL_DATATYPE_SURFACE,
      BLI_displist_batch_calc_surface, hs, hn]

/-- Witness of C6: the metaball holds a dirty entry with a stale batch; the
never-cached run starts in a world with an empty log and the same allocator
position. -/
theorem C6_free_then_get_as_never_cached_witness :
    DRW_metaball_batch_cache_get_triangles_with_normals interleave_surface
        { is_basis := true, data := { batch_cache := none },
          curve_cache := some { disp := sample_disp 4 } }
        { next := 1, live := [],
          log := [Event.cache_alloc, Event.batch_build 0, Event.batch_discard 0,
                  Event.cache_free] }
      = Outcome.ok (some (sample_batch 1 4),
          { is_basis := true,
            data := { batch_cache := some { batch := some (sample_batch 1 4),
                                            is_dirty := false } },
            curve_cache := some { disp := sample_disp 4 } },
          { next := 2, live := [1],
            log := [Event.cache_alloc, Event.batch_build 0, Event.batch_discard 0,
                    Event.cache_free, Event.cache_alloc, Event.batch_build 1] }) ∧
    DRW_metaball_batch_cache_get_triangles_with_normals interleave_surface
        { is_basis := true, data := { batch_cache := none },
          curve_cache := some { disp := sample_disp 4 } }
        { next := 1, live := [], log := [] }
      = Outcome.ok (some (sample_batch 1 4),
          { is_basis := true,
            data := { batch_cache := some { batch := some (sample_batch 1 4),
                                            is_dirty := false } },
            curve_cache := some { disp := sample_disp 4 } },
          { next := 2, live := [1], log := [Event.cache_alloc, Event.batch_build 1] }) :=
  C6_free_then_get_as_never_cached interleave_surface
    { is_basis := true,
      data := { batch_cache := some { batch := some (sample_batch 0 2), is_dirty := true } },
      curve_cache := some { disp := sample_disp 4 } }
    sample_world_one { next := 1, live := [], log := [] } { disp := sample_disp 4 }
    (sample_batch 1 4).verts rfl rfl rfl rfl

/-- C9: for a basis object with populated geometry, in any cache state that
satisfies the ownership invariant,
`DRW_metaball_batch_cache_get_triangles_with_normals` returns a batch, and
afterwards the cache entry exists, is clean and holds exactly the batch
returned, which is the one live batch; a batch held by an entry that was dirty
at the call is discarded and is not the batch returned. -/
theorem C9_get_ends_clean (surf : SurfaceCalc) (ob : Object) (w : World)
    (cc : CurveCache) (vs : List Vert)
    (hb : BKE_mball_is_basis ob = true)
    (hg : ob.curve_cache = some cc) (hs : surf cc.disp = some vs)
    (hinv : Inv ob.data w) :
    ∃ b w1,
      DRW_metaball_batch_cache_get_triangles_with_normals surf ob w
        = Outcome.ok (some b,
            { ob with data := { batch_cache := some { batch := some b, is_dirty := false } } },
            w1) ∧
      w1.live = [b.id] ∧
      ∀ cache stale, ob.data.batch_cache = some cache → cache.is_dirty = true →
        cache.batch = some stale →
        b ≠ stale ∧ b.id ≠ stale.id ∧ stale.id ∉ w1.live ∧
          Event.batch_discard stale.id ∈ w1.log := by
  rcases ob with ⟨ib, ⟨c⟩, g⟩
  simp only [BKE_mball_is_basis] at hb hg hinv
  subst hb hg
  obtain ⟨hl, hlt, -⟩ := hinv
  rcases c with _ | ⟨_ | b0, _ | _⟩
  · simp only [owned] at hl
    refine ⟨{ id := w.next, verts := vs },
      { next := w.next + 1, live := w.live ++ [w.next],
        log := w.log ++ [Event.cache_alloc, Event.batch_build w.next] }, ?_, ?_, ?_⟩
    · simp [DRW_metaball_batch_cache_get_triangles_with_normals, BKE_mball_is_basis,
        metaball_batch_cache_get, metaball_batch_cache_valid, metaball_batch_cache_clear,
        metaball_batch_cache_init, metaball_render_data_create,
        metaball_batch_cache_get_pos_and_normals, MBALL_DATATYPE_SURFACE,
        BLI_displist_batch_calc_surface, hs]
    · simp [hl]
    · simp
  · simp only [owned] at hl
    refine ⟨{ id := w.next, verts := vs },
      { next := w.next + 1, live := w.live ++ [w.next],
        log := w.log ++ [Event.batch_build w.next] }, ?_, ?_, ?_⟩
    · simp [DRW_metaball_batch_cache_get_triangles_with_normals, BKE_mball_is_basis,
        metaball_batch_cache_get, metaball_batch_cache_valid, metaball_render_data_create,
        metaball_batch_cache_get_pos_and_normals, MBALL_DATATYPE_SURFACE,
        BLI_displist_batch_calc_surface, hs]
    · simp [hl]
    · intro cache stale h1 h2
      simp at h1
      subst h1
      simp at h2
  · simp only [owned] at hl
    refine ⟨{ id := w.next, verts := vs },
      { next := w.next + 1, live := w.live ++ [w.next],
        log := w.log ++ [Event.batch_build w.next] }, ?_, ?_, ?_⟩
    · simp [DRW_metaball_batch_cache_get_triangles_with_normals, BKE_mball_is_basis,
        metaball_batch_cache_get, metaball_batch_cache_valid, metaball_batch_cache_clear,
        metaball_batch_cache_init, metaball_render_data_create,
        metaball_batch_cache_get_pos_and_normals, MBALL_DATATYPE_SURFACE,
        BLI_displist_batch_calc_surface, GWN_BATCH_DISCARD_SAFE, hs]
    · simp [hl]
    · intro cache stale h1 _ h3
      simp at h1
      subst h1
      simp at h3
  · simp only [owned] at hl
    refine ⟨b0, w, ?_, ?_, ?_⟩
    · simp [DRW_metaball_batch_cache_get_triangles_with_normals, BKE_mball_is_basis,
        metaball_batch_cache_get, metaball_batch_cache_valid]
    · exact hl
    · intro cache stale h1 h2
      simp at h1
      subst h1
      simp at h2
  · simp only [owned] at hl
    have hlt1 : b0.id < w.next := hlt b0.id (by rw [hl]; simp)
    refine ⟨{ id := w.next, verts := vs },
      { next := w.next + 1, live := w.live.erase b0.id ++ [w.next],
        log := w.log ++ [Event.batch_discard b0.id, Event.batch_build w.next] }, ?_, ?_, ?_⟩
    · simp [DRW_metaball_batch_cache_get_triangles_with_normals, BKE_mball_is_basis,
        metaball_batch_cache_get, metaball_batch_cache_valid, metaball_batch_cache_clear,
        metaball_batch_cache_init, metaball_render_data_create,
        metaball_batch_cache_get_pos_and_normals, MBALL_DATATYPE_SURFACE,
        BLI_displist_batch_calc_surface, GWN_BATCH_DISCARD_SAFE, GWN_batch_discard, hs]
    · simp [hl]
    · intro cache stale h1 _ h3
      simp at h1
      subst h1
      simp at h3
      subst h3
      refine ⟨?_, ?_, ?_, ?_⟩
      · intro h
        have := congrArg Gwn_Batch.id h
        simp at this
        omega
      · simp; omega
      · simp [hl]; omega
      · simp

/-- Witness of C9: a dirty entry with a stale batch. -/
theorem C9_get_ends_clean_witness :
    Inv sample_stale_object.data sample_world_one ∧
    ∃ b w1,
      DRW_metaball_batch_cache_get_triangles_with_normals interleave_surface
          sample_stale_object sample_world_one
        = Outcome.ok (some b,
            { sample_stale_object with
              data := { batch_cache := some { batch := some b, is_dirty := false } } },
            w1) ∧
      w1.live = [b.id] ∧
      ∀ cache stale, sample_stale_object.data.batch_cache = some cache →
        cache.is_dirty = true → cache.batch = some stale →
        b ≠ stale ∧ b.id ≠ stale.id ∧ stale.id ∉ w1.live ∧
          Event.batch_discard stale.id ∈ w1.log :=
  ⟨by decide,
   C9_get_ends_clean interleave_surface sample_stale_object sample_world_one
     { disp := sample_disp 4 } (sample_batch 1 4).verts rfl rfl rfl (by decide)⟩

/-- C8, counterexample: on a metaball without a cache entry,
`DRW_mball_batch_cache_dirty` with a mode other than
`BKE_MBALL_BATCH_DIRTY_ALL` returns normally, with nothing changed; the
assertion does not fire. -/
theorem C8_no_entry_invalid_mode_returns :
    BKE_MBALL_BATCH_DIRTY_ALL + 1 ≠ BKE_MBALL_BATCH_DIRTY_ALL ∧
    DRW_mball_batch_cache_dirty { batch_cache := none } (BKE_MBALL_BATCH_DIRTY_ALL + 1)
        sample_world
      = Outcome.ok ({ batch_cache := none }, sample_world) ∧
    DRW_mball_batch_cache_dirty { batch_cache := none } (BKE_MBALL_BATCH_DIRTY_ALL + 1)
        sample_world
      ≠ Outcome.assert_failed := by
  decide

/-- C8, amended: for a mode other than `BKE_MBALL_BATCH_DIRTY_ALL`,
`DRW_mball_batch_cache_dirty` traps on the assertion when the metaball has a
cache entry, whatever the entry holds, and returns normally with nothing
changed when the metaball has no entry. -/
theorem C8_invalid_mode_traps_iff_entry (cache : MetaBallBatchCache) (mode : Int) (w : World)
    (h : mode ≠ BKE_MBALL_BATCH_DIRTY_ALL) :
    DRW_mball_batch_cache_dirty { batch_cache := some cache } mode w = Outcome.assert_failed ∧
    DRW_mball_batch_cache_dirty { batch_cache := none } mode w
      = Outcome.ok ({ batch_cache := none }, w) := by
  simp [DRW_mball_batch_cache_dirty, h]

/-- Witness of C8, amended: a clean entry that holds a batch, and the mode
after `BKE_MBALL_BATCH_DIRTY_ALL`. -/
theorem C8_invalid_mode_traps_iff_entry_witness :
    BKE_MBALL_BATCH_DIRTY_ALL + 1 ≠ BKE_MBALL_BATCH_DIRTY_ALL ∧
    DRW_mball_batch_cache_dirty
        { batch_cache := some { batch := some (sample_batch 0 2), is_dirty := false } }
        (BKE_MBALL_BATCH_DIRTY_ALL + 1) sample_world_one
      = Outcome.assert_failed ∧
    DRW_mball_batch_cache_dirty { batch_cache := none } (BKE_MBALL_BATCH_DIRTY_ALL + 1)
        sample_world_one
      = Outcome.ok ({ batch_cache := none }, sample_world_one) :=
  ⟨by decide,
   C8_invalid_mode_traps_iff_entry
     { batch := some (sample_batch 0 2), is_dirty := false }
     (BKE_MBALL_BATCH_DIRTY_ALL + 1) sample_world_one (by decide)⟩

/-- C7: with the live batches tracked in the world, the ownership invariant
holds in the never-cached state and is kept by every call of
`DRW_metaball_batch_cache_get_triangles_with_normals`,
`DRW_mball_batch_cache_dirty` and `DRW_mball_batch_cache_free` that returns,
hence after any sequence of such calls; under the invariant the live batches
are none when there is no entry or the entry's batch is absent and else
exactly the entry's batch, so at most one batch is live, every batch built is
live or was discarded, and no batch was discarded twice. -/
theorem C7_ownership_invariant (surf : SurfaceCalc) :
    (∀ n, Inv { batch_cache := none } { next := n, live := [], log := [] }) ∧
    (∀ op s s1, Inv s.1 s.2 → step surf op s = Outcome.ok s1 → Inv s1.1 s1.2) ∧
    (∀ ops n s,
      run surf ops ({ batch_cache := none }, { next := n, live := [], log := [] })
        = Outcome.ok s → Inv s.1 s.2) ∧
    (∀ mb w, Inv mb w →
      (mb.batch_cache = none → w.live = []) ∧
      (∀ cache, mb.batch_cache = some cache → cache.batch = none → w.live = []) ∧
      (∀ cache b, mb.batch_cache = some cache → cache.batch = some b → w.live = [b.id]) ∧
      w.live.length ≤ 1 ∧
      (∀ i ∈ built w.log, i ∈ w.live ∨ i ∈ discarded w.log) ∧
      (discarded w.log).Nodup ∧
      (∀ i ∈ discarded w.log, i ∉ w.live)) := by
  have hinit : ∀ n, Inv { batch_cache := none } { next := n, live := [], log := [] } := by
    intro n
    simp [Inv, owned, built, discarded]
  have hstep : ∀ op s s1, Inv s.1 s.2 → step surf op s = Outcome.ok s1 → Inv s1.1 s1.2 := by
    intro op s s1 hi h
    cases op with
    | get ib g =>
      simp only [step] at h
      split at h
      · rename_i r hr
        simp at h
        subst h
        rcases r with ⟨r0, ob1, w1⟩
        exact inv_get { is_basis := ib, data := s.1, curve_cache := g } hi hr
      · simp at h
      · simp at h
    | dirty mode =>
      rcases s1 with ⟨mb1, w1⟩
      exact inv_dirty hi h
    | free =>
      simp only [step] at h
      simp at h
      subst h
      exact inv_free hi
  have hrun : ∀ ops s0 s, Inv s0.1 s0.2 → run surf ops s0 = Outcome.ok s → Inv s.1 s.2 := by
    intro ops
    induction ops with
    | nil =>
      intro s0 s hi h
      simp [run] at h
      subst h
      exact hi
    | cons op rest ih =>
      intro s0 s hi h
      simp only [run] at h
      split at h
      · rename_i s1 hs1
        exact ih s1 s (hstep op s0 s1 hi hs1) h
      · simp at h
      · simp at h
  refine ⟨hinit, hstep, fun ops n s h => hrun ops _ s (hinit n) h, ?_⟩
  intro mb w hi
  obtain ⟨hl, -, hd, hnd, hb⟩ := hi
  refine ⟨?_, ?_, ?_, ?_, hb, hnd, fun i h => (hd i h).2⟩
  · intro h
    simp [hl, owned, h]
  · intro cache h1 h2
    simp [hl, owned, h1, h2]
  · intro cache b h1 h2
    simp [hl, owned, h1, h2]
  · rw [hl]
    unfold owned
    split
    · simp
    · split <;> simp

/-- Witness of C7: build from two triangles, invalidate, rebuild from four,
free twice, then a call on a non-basis object. -/
theorem C7_ownership_invariant_witness :
    run interleave_surface
        [Op.get true (some { disp := sample_disp 2 }), Op.dirty BKE_MBALL_BATCH_DIRTY_ALL,
         Op.get true (some { disp := sample_disp 4 }), Op.free, Op.free, Op.get false none]
        ({ batch_cache := none }, { next := 0, live := [], log := [] })
      = Outcome.ok ({ batch_cache := none },
          { next := 2, live := [],
            log := [Event.cache_alloc, Event.batch_build 0, Event.batch_discard 0,
                    Event.batch_build 1, Event.batch_discard 1, Event.cache_free] }) ∧
    Inv { batch_cache := none }
      { next := 2, live := [],
        log := [Event.cache_alloc, Event.batch_build 0, Event.batch_discard 0,
                Event.batch_build 1, Event.batch_discard 1, Event.cache_free] } := by
  refine ⟨by decide, ?_⟩
  exact (C7_ownership_invariant interleave_surface).2.2.1
    [Op.get true (some { disp := sample_disp 2 }), Op.dirty BKE_MBALL_BATCH_DIRTY_ALL,
     Op.get true (some { disp := sample_disp 4 }), Op.free, Op.free, Op.get false none]
    0 ({ batch_cache := none },
      { next := 2, live := [],
        log := [Event.cache_alloc, Event.batch_build 0, Event.batch_discard 0,
                Event.batch_build 1, Event.batch_discard 1, Event.cache_free] })
    (by decide)

end DrawCacheMetaball
